import Mathlib

/-
Verification of the vector-store retrieval engine in
`personal_assistant/vector_stores/supabase_store.py`.

The Python module is shallowly embedded: pure string manipulation is
translated to executable Lean functions over `List Char`, Python
exceptions become `Except PyErr`, and the two external collaborators
(the OpenAI embedding service and the Supabase persistence backend) are
modelled as parameters: the embedding service as a function from text to
an `Except`-valued vector (plus, for the retry loop, an oracle giving
the outcome of each remote attempt), and the backend as a record of
operations on an explicit database state (a list of rows).  A concrete
"good" backend implements the honest semantics of the SQL operations the
code issues (upsert by unique `doc_id`, select, ILIKE pattern matching,
count, delete); adversarial backends are used to exercise the error
handling paths.
-/

namespace SupabaseStore

-- ===================================================================
-- Python string primitives (over List Char, so everything reduces)
-- ===================================================================

/-- Lowercase a string, character by character (model of `str.lower()`
on the ASCII texts this module manipulates). -/
def pyLower (s : String) : String := ⟨s.toList.map Char.toLower⟩

/-- Model of `str.strip()`: drop leading and trailing whitespace. -/
def pyStrip (s : String) : String :=
  ⟨((s.toList.dropWhile Char.isWhitespace).reverse.dropWhile Char.isWhitespace).reverse⟩

/-- Word accumulator for `pySplitWs`; mirrors `str.split()` with no
arguments: split on whitespace runs, producing no empty words. -/
def wordsGo : List Char → List Char → List String
  | [], acc => if acc.isEmpty then [] else [⟨acc.reverse⟩]
  | c :: cs, acc =>
    if c.isWhitespace then
      if acc.isEmpty then wordsGo cs [] else (⟨acc.reverse⟩ : String) :: wordsGo cs []
    else wordsGo cs (c :: acc)

/-- Model of Python `str.split()` (no separator argument). -/
def pySplitWs (s : String) : List String := wordsGo s.toList []

/-- Fuelled splitter for `pySplitStr`; the fuel is an upper bound on the
number of characters consumed, so the recursion is structural and the
definition reduces by `rfl`/`decide`. -/
def splitOnGo (pat : List Char) : Nat → List Char → List Char → List String
  | _, [], acc => [⟨acc⟩]
  | 0, l, acc => [⟨acc ++ l⟩]
  | fuel + 1, c :: cs, acc =>
    if pat ≠ [] ∧ pat.isPrefixOf (c :: cs) then
      (⟨acc⟩ : String) :: splitOnGo pat fuel ((c :: cs).drop pat.length) []
    else splitOnGo pat fuel cs (acc ++ [c])

/-- Model of Python `str.split(sep)` with a non-empty separator: greedy
left-to-right, non-overlapping; `"project".split("project") = ["",""]`. -/
def pySplitStr (s sep : String) : List String :=
  splitOnGo sep.toList (s.toList.length + 1) s.toList []

/-- Fuelled replace; mirrors Python `str.replace(pat, rep)` (all
occurrences, left to right, non-overlapping). -/
def replaceGo (pat rep : List Char) : Nat → List Char → List Char
  | _, [] => []
  | 0, l => l
  | fuel + 1, c :: cs =>
    if pat ≠ [] ∧ pat.isPrefixOf (c :: cs) then
      rep ++ replaceGo pat rep fuel ((c :: cs).drop pat.length)
    else c :: replaceGo pat rep fuel cs

/-- Model of Python `str.replace(pat, rep)` for a non-empty pattern. -/
def pyReplace (s pat rep : String) : String :=
  ⟨replaceGo pat.toList rep.toList (s.toList.length + 1) s.toList⟩

/-- Model of the Python containment test `needle in hay` on strings. -/
def pyContains (hay needle : String) : Bool :=
  needle.toList.isEmpty || (pySplitStr hay needle).length > 1

/-- Drop everything up to and including the first occurrence of `pat`;
`none` when `pat` does not occur.  Used to interpret SQL LIKE patterns. -/
def findSub (pat : List Char) : List Char → Option (List Char)
  | [] => if pat.isEmpty then some [] else none
  | c :: cs =>
    if pat.isPrefixOf (c :: cs) then some ((c :: cs).drop pat.length)
    else findSub pat cs

/-- Matches the middle/last pieces of a LIKE pattern: every piece in
order, with the final piece anchored as a suffix. -/
def likeTail : List Char → List (List Char) → Bool
  | _, [] => true
  | hay, [p] => p.isSuffixOf hay
  | hay, p :: ps =>
    match findSub p hay with
    | some rest => likeTail rest ps
    | none => false

/-- Semantics of SQL `ILIKE`: the pattern is split on `%` into literal
pieces; content matches when the first piece is a prefix, the last piece
a suffix, and the middle pieces occur in order in between.  Both sides
are lowercased (ILIKE is case-insensitive).  The patterns built by
`search_fallback` always start and end with `%`, so the anchors are
trivially satisfied there. -/
def likeMatch (pattern content : String) : Bool :=
  let parts := pySplitStr (pyLower pattern) "%"
  let hay := (pyLower content).toList
  match parts with
  | [] => hay.isEmpty
  | [p] => hay == p.toList
  | p :: rest =>
    p.toList.isPrefixOf hay && likeTail (hay.drop p.toList.length) (rest.map String.toList)

/-- Model of `sep.join(xs)` (Python `str.join`). -/
def joinSep (sep : String) : List String → String
  | [] => ""
  | [x] => x
  | x :: xs => x ++ sep ++ joinSep sep xs

-- ===================================================================
-- JSON metadata model
-- ===================================================================

/-- A JSON value: the model of the JSON-serializable Python metadata
values (`None`/bool/int/str/list/dict) flowing through the store. -/
inductive Json where
  | null
  | bool (b : Bool)
  | num (n : Int)
  | str (s : String)
  | arr (xs : List Json)
  | obj (kvs : List (String × Json))
deriving Repr

/-- Model of the output of Python `json.dumps`: the serialized text of a
JSON value.  The `json` library is external to the repository (standard
library); its contract, which §3 of the spec states as "round-trips
through serialization", is modelled by keeping the structured value
inside the serialized payload, so that `json_loads` can be its exact
inverse while the store code still has to route the payload through the
serialize/deserialize calls at the right places. -/
structure JsonText where
  val : Json
deriving Repr

/-- Model of `json.dumps` on a JSON value. -/
def json_dumps (j : Json) : JsonText := ⟨j⟩

/-- Model of `json.loads` on serialized text (total on the image of
`json_dumps`; the `JSONDecodeError` branch of the Python code is
unreachable in this model and noted where it occurs). -/
def json_loads (s : JsonText) : Option Json := some s.val

/-- The metadata cell of a stored row: either a serialized string (what
`json.dumps` produced) or a raw non-string value, matching the
`isinstance(metadata, str)` dispatch in `get_document` and `search`. -/
inductive MetaCell where
  | ser (s : JsonText)
  | val (j : Json)
deriving Repr

/-- Metadata preparation in `upsert`:
`json.dumps(metadata) if isinstance(metadata, dict) else metadata`. -/
def metaToCell (metadata : Json) : MetaCell :=
  match metadata with
  | Json.obj kvs => MetaCell.ser (json_dumps (Json.obj kvs))
  | j => MetaCell.val j

/-- Metadata preparation in `upsert_batch`:
`json.dumps(doc.get("metadata", {})) if isinstance(doc.get("metadata", {}), dict)
 else doc.get("metadata", "{}")`, with `none` modelling a missing key. -/
def batchMetaCell (metadata : Option Json) : MetaCell :=
  match metadata.getD (Json.obj []) with
  | Json.obj kvs => MetaCell.ser (json_dumps (Json.obj kvs))
  | j => MetaCell.val j

/-- Metadata post-processing in `get_document` and `search`: parse the
cell when it is a string, keep it when parsing fails or it is not a
string. -/
def parseMetaCell (c : MetaCell) : MetaCell :=
  match c with
  | MetaCell.ser s =>
    match json_loads s with
    | some j => MetaCell.val j
    | none => MetaCell.ser s
  | c => c

-- ===================================================================
-- Rows, responses, errors
-- ===================================================================

/-- A stored row of the `documents` table (the columns the code reads). -/
structure Row where
  doc_id : String
  content : String
  embedding : List ℚ
  metadata : MetaCell
deriving Repr

/-- A row returned by the similarity query: `doc_id`, `content`,
`metadata` and the derived `score` (`1 - cosine distance`, computed by
the backend). -/
structure SRow where
  doc_id : String
  content : String
  metadata : MetaCell
  score : ℚ
deriving Repr

/-- A backend response object: the code inspects `.error` (truthiness),
`.data`, and for counting `.count`. -/
structure Resp where
  error : Bool
  data : List Row
  count : Option Nat
deriving Repr

/-- A response of the similarity RPC (rows carry scores). -/
structure RespS where
  error : Bool
  data : List SRow
deriving Repr

/-- Python exceptions distinguished by the claims. -/
inductive PyErr where
  | valueError (msg : String)
  | runtimeError (msg : String)
  | indexError
  | apiError (msg : String)
deriving Repr, DecidableEq

/-- Result of `search`: either scored rows from the similarity query or
plain rows from the lexical fallback (a Python caller distinguishes the
two shapes by their keys). -/
inductive SearchOut where
  | vecRows (rows : List SRow)
  | fb (rows : List Row)
deriving Repr

-- ===================================================================
-- The persistence backend interface
-- ===================================================================

/-- The operations `supabase_store.py` issues against the Supabase
client, as functions of the database state.  Each returns `Except`:
`.error e` models the client raising an exception, `.ok` a response
object (which may still carry a truthy `.error` field — the code checks
both).  Write operations also return the new database state. -/
structure Backend where
  upsertRows : List Row → List Row → Except PyErr (Resp × List Row)
  ilike : String → Nat → List Row → Except PyErr Resp
  selectAll : Nat → List Row → Except PyErr Resp
  selectByDocId : String → List Row → Except PyErr Resp
  deleteByDocId : String → List Row → Except PyErr (Resp × List Row)
  countExact : List Row → Except PyErr Resp
  rpcSimilarity : List ℚ → Nat → List Row → Except PyErr RespS

/-- Honest upsert-by-unique-`doc_id` on the row list: replace every row
with the same `doc_id`, or append when none matches (the `documents`
table declares `doc_id TEXT UNIQUE`). -/
def dbUpsertRow (db : List Row) (r : Row) : List Row :=
  if db.any (fun x => x.doc_id == r.doc_id) then
    db.map (fun x => if x.doc_id == r.doc_id then r else x)
  else db ++ [r]

/-- Bulk upsert: fold the single-row upsert over the batch. -/
def dbUpsertRows (db : List Row) (rs : List Row) : List Row :=
  rs.foldl dbUpsertRow db

/-- The honest backend: every operation succeeds and implements the SQL
semantics of the queries the code builds.  The similarity RPC is a
parameter because cosine ranking needs no honest model for the claims
settled here (only its response shape is consumed). -/
def mkGoodBackend (rpcSim : List ℚ → Nat → List Row → Except PyErr RespS) : Backend where
  upsertRows := fun rows db => .ok (⟨false, rows, none⟩, dbUpsertRows db rows)
  ilike := fun pattern limit db =>
    .ok ⟨false, (db.filter (fun r => likeMatch pattern r.content)).take limit, none⟩
  selectAll := fun limit db => .ok ⟨false, db.take limit, none⟩
  selectByDocId := fun id db => .ok ⟨false, db.filter (fun r => r.doc_id == id), none⟩
  deleteByDocId := fun id db =>
    .ok (⟨false, db.filter (fun r => r.doc_id == id), none⟩,
         db.filter (fun r => r.doc_id != id))
  countExact := fun db => .ok ⟨false, [], some db.length⟩
  rpcSimilarity := rpcSim

/-- The good backend with a similarity RPC that reports zero rows. -/
def goodB : Backend := mkGoodBackend (fun _ _ _ => .ok ⟨false, []⟩)

-- ===================================================================
-- Embedder (module-level helpers of supabase_store.py)
-- ===================================================================

/-- Constant `EMBED_MODEL` of the module. -/
def EMBED_MODEL : String := "text-embedding-3-small"

/-- Constant `_TOPK_DEFAULT`: the default `top_k` of `search`. -/
def TOPK_DEFAULT : Nat := 8

/-- Constant `_BATCH_SIZE`: documents embedded per API call. -/
def BATCH_SIZE : Nat := 20

/-- Constant `_MAX_RETRIES`: maximum attempts for an embedding call. -/
def MAX_RETRIES : Nat := 3

/-- Constant `_RETRY_DELAY`: base delay in seconds between retries. -/
def RETRY_DELAY : Nat := 2

/-- Outcome of one remote `client.embeddings.create` attempt. -/
inductive Attempt (α : Type) where
  | success (v : α)
  | failure
deriving Repr

/-- Observable trace of a retry loop: the final result, the list of
`time.sleep` durations in order, and the number of attempts made. -/
structure RetryTrace (α : Type) where
  result : Except PyErr α
  delays : List Nat
  attempts : Nat
deriving Repr

/-- The retry loop shared by `_embed_single` and `_embed_batch`:
`retries = 0; while retries < _MAX_RETRIES: try ... except: retries += 1;
if retries >= _MAX_RETRIES: raise; time.sleep(delayOf retries)`.
`delayOf` receives the post-increment `retries` value, exactly the
argument of the `time.sleep` call at that point.  The fuel starts at
`_MAX_RETRIES` and bounds the loop structurally. -/
def retryGo {α : Type} (oracle : Nat → Attempt α) (delayOf : Nat → Nat) :
    Nat → Nat → RetryTrace α
  | _, 0 => ⟨.error (.apiError "loop exhausted"), [], 0⟩
  | retries, fuel + 1 =>
    match oracle retries with
    | .success v => ⟨.ok v, [], 1⟩
    | .failure =>
      let retries' := retries + 1
      if retries' ≥ MAX_RETRIES then ⟨.error (.apiError "retries exhausted"), [], 1⟩
      else
        let t := retryGo oracle delayOf retries' fuel
        ⟨t.result, delayOf retries' :: t.delays, t.attempts + 1⟩

/-- Trace semantics of `_embed_single(text)`: rejects empty text, then
runs the retry loop with the constant delay `time.sleep(_RETRY_DELAY)`. -/
def embed_single_trace (oracle : Nat → Attempt (List ℚ)) (text : String) :
    Except PyErr (RetryTrace (List ℚ)) :=
  if pyStrip text == "" then .error (.valueError "Cannot embed empty text")
  else .ok (retryGo oracle (fun _ => RETRY_DELAY) 0 MAX_RETRIES)

/-- Trace semantics of the retry loop of `_embed_batch(texts)`: the
delay is `time.sleep(_RETRY_DELAY * retries)` (increasing backoff). -/
def embed_batch_trace (oracle : Nat → Attempt (List (List ℚ))) :
    RetryTrace (List (List ℚ)) :=
  retryGo oracle (fun retries => RETRY_DELAY * retries) 0 MAX_RETRIES

/-- Net semantics of `_embed_batch(texts)` over the eventual outcome
`svc` of the (retried) remote call: returns `[]` for an empty or
all-empty input, otherwise one embedding per whitespace-non-empty text,
in order.  The remote service maps each input to its embedding; `svc`
abstracts it as a per-call outcome. -/
def embed_batch (svc : List String → Except PyErr (List (List ℚ)))
    (texts : List String) : Except PyErr (List (List ℚ)) :=
  if texts.isEmpty then .ok []
  else
    let valid_texts := texts.filter (fun text => pyStrip text ≠ "")
    if valid_texts.isEmpty then .ok []
    else svc valid_texts

-- ===================================================================
-- SupabaseVectorStore methods
-- ===================================================================

/-- Method `upsert(doc_id, content, metadata)`: validates, embeds,
serializes the metadata, writes one row.  The `except ... raise` wrapper
re-raises every exception, so errors pass through unchanged.  Returns
the written row (`response.data[0]`) and the new database state. -/
def upsert (embedOne : String → Except PyErr (List ℚ)) (B : Backend) (db : List Row)
    (doc_id content : String) (metadata : Json) : Except PyErr (Row × List Row) :=
  if pyStrip content == "" then .error (.valueError "Document content cannot be empty")
  else if doc_id == "" then .error (.valueError "Document ID is required")
  else
    match embedOne content with
    | .error e => .error e
    | .ok embedding =>
      let row : Row := ⟨doc_id, content, embedding, metaToCell metadata⟩
      match B.upsertRows [row] db with
      | .error e => .error e
      | .ok (resp, db') =>
        if resp.error then .error (.runtimeError "Upsert error")
        else
          match resp.data with
          | [] => .error (.runtimeError "Upsert returned no data")
          | d :: _ => .ok (d, db')

/-- An input document dict of `upsert_batch`: `content`/`metadata` are
`Option` because the code tests `"content" in doc` and uses
`doc.get("metadata", ...)`. -/
structure InDoc where
  doc_id : String
  content : Option String
  metadata : Option Json
deriving Repr

/-- Python truthiness of `"content" in doc and doc["content"]`. -/
def truthyContent (d : InDoc) : Bool :=
  match d.content with
  | some c => c ≠ ""
  | none => false

/-- Fuelled chunking, mirroring
`[documents[i:i + _BATCH_SIZE] for i in range(0, len(documents), _BATCH_SIZE)]`. -/
def chunkGo {α : Type} (n : Nat) : Nat → List α → List (List α)
  | _, [] => []
  | 0, xs => [xs]
  | fuel + 1, xs => xs.take n :: chunkGo n fuel (xs.drop n)

/-- Split a list into chunks of size `n`. -/
def chunkList {α : Type} (n : Nat) (xs : List α) : List (List α) :=
  chunkGo n xs.length xs

/-- Row construction of `upsert_batch`: for each enumerated document of
the batch, a row is built only when `i < len(embeddings)` and the
content is truthy — the embedding is looked up at the *batch* index `i`,
although `embeddings` only holds vectors for the valid contents. -/
def buildRows (batch : List InDoc) (embeddings : List (List ℚ)) : List Row :=
  batch.enum.filterMap (fun p =>
    if p.1 < embeddings.length ∧ truthyContent p.2 then
      some ⟨p.2.doc_id, p.2.content.getD "", embeddings.getD p.1 [],
            batchMetaCell p.2.metadata⟩
    else none)

/-- Body of the per-batch loop of `upsert_batch`: extract truthy
contents, embed them, map embeddings back by batch index, bulk upsert,
extend the running results with `response.data`. -/
def processBatch (svc : List String → Except PyErr (List (List ℚ))) (B : Backend)
    (st : List Row × List Row) (batch : List InDoc) : Except PyErr (List Row × List Row) :=
  let contents := (batch.filter truthyContent).map (fun d => d.content.getD "")
  if contents.isEmpty then .ok st
  else
    match embed_batch svc contents with
    | .error e => .error e
    | .ok embeddings =>
      let rows := buildRows batch embeddings
      if rows.isEmpty then .ok st
      else
        match B.upsertRows rows st.2 with
        | .error e => .error e
        | .ok (resp, db') =>
          if resp.error then .error (.runtimeError "Batch upsert error")
          else .ok (st.1 ++ resp.data, db')

/-- Fold of `processBatch` over the chunks. -/
def upsertBatches (svc : List String → Except PyErr (List (List ℚ))) (B : Backend) :
    List (List InDoc) → List Row × List Row → Except PyErr (List Row × List Row)
  | [], st => .ok st
  | batch :: rest, st =>
    match processBatch svc B st batch with
    | .error e => .error e
    | .ok st' => upsertBatches svc B rest st'

/-- Method `upsert_batch(documents)`: chunks of `_BATCH_SIZE`, batch
embedding, bulk writes; returns the accumulated `response.data` rows and
the final database state.  The `except ... raise` wrapper re-raises. -/
def upsert_batch (svc : List String → Except PyErr (List (List ℚ))) (B : Backend)
    (db : List Row) (documents : List InDoc) : Except PyErr (List Row × List Row) :=
  if documents.isEmpty then .ok ([], db)
  else upsertBatches svc B (chunkList BATCH_SIZE documents) ([], db)

-- ===================================================================
-- search_fallback
-- ===================================================================

/-- Stage 1 of `search_fallback`: `for i in range(len(query_words)):
if i > 3: break; term = "%" + "%".join(query_words[i:]) + "%"; ilike; return
data when non-empty`.  The fuel is `query_words.length`, making the loop
structural; `some data` models the early `return`. -/
def stage1Go (B : Backend) (db : List Row) (top_k : Nat) (words : List String) :
    Nat → Nat → Except PyErr (Option (List Row))
  | _, 0 => .ok none
  | i, fuel + 1 =>
    if i ≥ words.length then .ok none
    else if i > 3 then .ok none
    else
      let search_term := "%" ++ joinSep "%" (words.drop i) ++ "%"
      match B.ilike search_term top_k db with
      | .error e => .error e
      | .ok resp =>
        if resp.data.length > 0 then .ok (some resp.data)
        else stage1Go B db top_k words (i + 1) fuel

/-- Stage 3 inner loop of `search_fallback`: append every document whose
lowercased content contains any query term, breaking once `top_k`
results are collected. -/
def stage3Go (terms : List String) (top_k : Nat) :
    List Row → List Row → List Row
  | [], results => results
  | doc :: docs, results =>
    if terms.any (fun term => pyContains (pyLower doc.content) term) then
      let results' := results ++ [doc]
      if results'.length ≥ top_k then results'
      else stage3Go terms top_k docs results'
    else stage3Go terms top_k docs results

/-- The `try:` body of `search_fallback`: the three in-band stages.
Raises (`.error`) when a backend call raises or when the `project`
heuristic evaluates `[0]` on an empty list (`IndexError`) — which
happens whenever the query contains `"project"` with no token after its
first occurrence. -/
def fallbackTry (B : Backend) (db : List Row) (query : String) (top_k : Nat) :
    Except PyErr (List Row) :=
  let query_words := pySplitWs (pyReplace (pyReplace (pyLower query) "?" "") "." "")
  match stage1Go B db top_k query_words 0 query_words.length with
  | .error e => .error e
  | .ok (some data) => .ok data
  | .ok none =>
    -- second fallback: the "project" heuristic
    let afterProject : Except PyErr (Option (List Row)) :=
      if pyContains (pyLower query) "project" then
        let piece := (pySplitStr (pyLower query) "project").getD 1 ""
        match pySplitWs (pyStrip piece) with
        | [] => .error .indexError
        | project_name :: _ =>
          if project_name ≠ "" then
            let search_term := "%project " ++ project_name ++ "%"
            match B.ilike search_term top_k db with
            | .error e => .error e
            | .ok resp =>
              if resp.data.length > 0 then .ok (some resp.data) else .ok none
          else .ok none
      else .ok none
    match afterProject with
    | .error e => .error e
    | .ok (some data) => .ok data
    | .ok none =>
      -- last resort inside the try: fetch up to 100 rows, filter client-side
      match B.selectAll 100 db with
      | .error e => .error e
      | .ok resp =>
        if resp.data.isEmpty then .ok []
        else
          let query_terms := pySplitWs (pyReplace (pyReplace (pyLower query) "?" "") "." "")
          let results := stage3Go query_terms top_k resp.data []
          .ok (results.take top_k)

/-- Method `search_fallback(query, top_k)`: the `try:` body above, with
the `except:` branch issuing one absolute-last-resort select (whose own
failure yields `[]`).  Note the last resort reads `.data` without
checking the `.error` field. -/
def search_fallback (B : Backend) (db : List Row) (query : String) (top_k : Nat) :
    List Row :=
  match fallbackTry B db query top_k with
  | .ok results => results
  | .error _ =>
    match B.selectAll top_k db with
    | .ok resp => resp.data
    | .error _ => []

-- ===================================================================
-- search
-- ===================================================================

/-- Metadata parsing applied to each similarity row in `search`. -/
def parseSRowMeta (r : SRow) : SRow :=
  { r with metadata := parseMetaCell r.metadata }

/-- The `try:` body of `search(query, top_k)`: validate, embed the
query, run the similarity RPC; a truthy response `.error` or an empty
row set routes to `search_fallback` (an in-band `return`), raised
exceptions escape as `.error`. -/
def searchTry (embedOne : String → Except PyErr (List ℚ)) (B : Backend) (db : List Row)
    (query : String) (top_k : Nat) : Except PyErr SearchOut :=
  if pyStrip query == "" then .error (.valueError "Search query cannot be empty")
  else
    match embedOne query with
    | .error e => .error e
    | .ok q_emb =>
      match B.rpcSimilarity q_emb top_k db with
      | .error e => .error e
      | .ok resp =>
        if resp.error then .ok (.fb (search_fallback B db query top_k))
        else
          let rows := resp.data.map parseSRowMeta
          if rows.isEmpty then .ok (.fb (search_fallback B db query top_k))
          else .ok (.vecRows rows)

/-- Method `search(query, top_k)`: the `try:` body with the blanket
`except Exception: return self.search_fallback(query, top_k)`.  The
result is always `.ok`; the `Except` layer records that the Python
function itself never lets an exception escape. -/
def searchE (embedOne : String → Except PyErr (List ℚ)) (B : Backend) (db : List Row)
    (query : String) (top_k : Nat) : Except PyErr SearchOut :=
  match searchTry embedOne B db query top_k with
  | .ok out => .ok out
  | .error _ => .ok (.fb (search_fallback B db query top_k))

-- ===================================================================
-- delete, get_document, count_documents
-- ===================================================================

/-- Method `delete(doc_id)`: returns `len(response.data) > 0`; any
exception (raised by the client or by the truthy `.error` check) is
swallowed and reported as `False`, leaving the state unchanged. -/
def delete (B : Backend) (db : List Row) (doc_id : String) : Bool × List Row :=
  match B.deleteByDocId doc_id db with
  | .error _ => (false, db)
  | .ok (resp, db') =>
    if resp.error then (false, db)
    else (resp.data.length > 0, db')

/-- The `try:` body of `get_document(doc_id)`. -/
def getDocTry (B : Backend) (db : List Row) (doc_id : String) :
    Except PyErr (Option Row) :=
  match B.selectByDocId doc_id db with
  | .error e => .error e
  | .ok resp =>
    if resp.error then .error (.runtimeError "Get document error")
    else
      match resp.data with
      | [] => .ok none
      | document :: _ =>
        .ok (some { document with metadata := parseMetaCell document.metadata })

/-- Method `get_document(doc_id)`: any exception yields `None`. -/
def get_document (B : Backend) (db : List Row) (doc_id : String) : Option Row :=
  match getDocTry B db doc_id with
  | .ok r => r
  | .error _ => none

/-- The `try:` body of `count_documents()`. -/
def countTry (B : Backend) (db : List Row) : Except PyErr Nat :=
  match B.countExact db with
  | .error e => .error e
  | .ok resp =>
    if resp.error then .error (.runtimeError "Count error")
    else
      match resp.count with
      | some c => .ok c
      | none => .ok 0

/-- Method `count_documents()`: any exception yields `0`. -/
def count_documents (B : Backend) (db : List Row) : Nat :=
  match countTry B db with
  | .ok n => n
  | .error _ => 0

-- ===================================================================
-- Concrete instances used by witnesses and counterexamples
-- ===================================================================

/-- A concrete deterministic embedding function (distinct texts with
distinct first characters get distinct vectors). -/
def embChar (s : String) : List ℚ := [((s.toList.headD ' ').toNat : ℚ)]

/-- An always-succeeding single-text embedder. -/
def embOK : String → Except PyErr (List ℚ) := fun s => .ok (embChar s)

/-- An always-failing single-text embedder (service down). -/
def embDown : String → Except PyErr (List ℚ) := fun _ => .error (.apiError "service down")

/-- An always-succeeding batch embedding service. -/
def svcOK : List String → Except PyErr (List (List ℚ)) := fun ts => .ok (ts.map embChar)

/-- A backend whose every call raises (transport failure). -/
def badB : Backend where
  upsertRows := fun _ _ => .error (.apiError "connection refused")
  ilike := fun _ _ _ => .error (.apiError "connection refused")
  selectAll := fun _ _ => .error (.apiError "connection refused")
  selectByDocId := fun _ _ => .error (.apiError "connection refused")
  deleteByDocId := fun _ _ => .error (.apiError "connection refused")
  countExact := fun _ => .error (.apiError "connection refused")
  rpcSimilarity := fun _ _ _ => .error (.apiError "connection refused")

/-- A stored row used in concrete runs. -/
def rowD1 : Row := ⟨"d1", "hello world", [1], MetaCell.val Json.null⟩

/-- A similarity row with a negative score. -/
def lowScoreRow : SRow := ⟨"d", "c", MetaCell.val Json.null, -(1 : ℚ) / 2⟩

/-- A good backend whose similarity RPC reports one row of score
`-1/2`. -/
def lowScoreB : Backend := mkGoodBackend (fun _ _ _ => .ok ⟨false, [lowScoreRow]⟩)

/-- Batch for claim C1: two documents, the first with empty content. -/
def docsC1 : List InDoc := [⟨"a", some "", none⟩, ⟨"b", some "hello", none⟩]

/-- Batch showing the pairing drift: after one skipped document, the
next document receives the following content's embedding. -/
def docsC1b : List InDoc :=
  [⟨"a", some "", none⟩, ⟨"b", some "x", none⟩, ⟨"c", some "y", none⟩]

/-- The row `upsert_batch` actually writes for `docsC1b`: content `"x"`
carrying the embedding of `"y"`. -/
def mispairedRow : Row :=
  ⟨"b", "x", embChar "y", MetaCell.ser (json_dumps (Json.obj []))⟩

/-- An embedding-attempt oracle that always fails. -/
def failS : Nat → Attempt (List ℚ) := fun _ => .failure

/-- A batch embedding-attempt oracle that always fails. -/
def failB : Nat → Attempt (List (List ℚ)) := fun _ => .failure

/-- The row written by a successful `upsert(doc_id, content, metadata)`
against a working embedder `E`. -/
def madeRow (E : String → List ℚ) (doc_id content : String) (metadata : Json) : Row :=
  ⟨doc_id, content, E content, metaToCell metadata⟩

-- ===================================================================
-- Helper lemmas
-- ===================================================================

/-- Replacing every row with a matching `doc_id` and then filtering on
that `doc_id` leaves copies of the replacement only. -/
theorem filter_map_upsert (r : Row) (db : List Row) :
    (db.map (fun x => if x.doc_id == r.doc_id then r else x)).filter
        (fun x => x.doc_id == r.doc_id) =
      List.replicate ((db.filter (fun x => x.doc_id == r.doc_id)).length) r := by
  induction db with
  | nil => rfl
  | cons x xs ih =>
    by_cases h : (x.doc_id == r.doc_id) = true
    · simp only [List.map_cons, List.filter_cons, h, if_pos, beq_self_eq_true,
        List.length_cons, ih, List.replicate_succ]
    · simp only [List.map_cons, List.filter_cons, h, if_neg, Bool.false_eq_true,
        ite_false, ih]

/-- After `dbUpsertRow db r`, filtering by the doc id of `r` yields `r`
first: the unique-key upsert makes the written row the one a subsequent
select-by-id returns. -/
theorem filter_dbUpsertRow (db : List Row) (r : Row) :
    ∃ rest, (dbUpsertRow db r).filter (fun x => x.doc_id == r.doc_id) = r :: rest := by
  unfold dbUpsertRow
  by_cases h : db.any (fun x => x.doc_id == r.doc_id)
  · rw [if_pos h, filter_map_upsert]
    rcases List.any_eq_true.mp h with ⟨x, hx, hpx⟩
    have hpos : 0 < (db.filter (fun y => y.doc_id == r.doc_id)).length :=
      List.length_pos.mpr (List.ne_nil_of_mem (List.mem_filter.mpr ⟨hx, hpx⟩))
    refine ⟨List.replicate ((db.filter (fun y => y.doc_id == r.doc_id)).length - 1) r, ?_⟩
    rw [← List.replicate_succ]
    congr 1
    omega
  · rw [if_neg h, List.filter_append]
    have h' : db.any (fun x => x.doc_id == r.doc_id) = false :=
      Bool.eq_false_iff.mpr h
    have hdb : db.filter (fun x => x.doc_id == r.doc_id) = [] := by
      refine List.filter_eq_nil_iff.mpr ?_
      intro a ha
      have := List.any_eq_false.mp h' a ha
      simp [this]
    refine ⟨[], ?_⟩
    simp [hdb, List.filter_cons, beq_self_eq_true]

-- ===================================================================
-- Claim theorems
-- ===================================================================

/-- C1: refuted on the code (code bug).  The claim states that a batch
of N documents of which M have empty content writes exactly the N-M
valid documents, each with the embedding of its own content.  In the
code, `embeddings` holds one vector per *valid* content but is indexed
by the *batch* position, so every valid document positioned after a
skipped one is either dropped (index out of range) or paired with the
embedding of a later content.  Concretely: a 2-document batch whose
first document has empty content writes and returns nothing (expected:
1 written, count +1), and in a 3-document batch the document with
content `"x"` is stored with the embedding of `"y"`. -/
theorem C1_upsert_batch_misindexes_embeddings :
    upsert_batch svcOK goodB [] docsC1 = .ok ([], []) ∧
    count_documents goodB [] = 0 ∧
    upsert_batch svcOK goodB [] docsC1b = .ok ([mispairedRow], [mispairedRow]) ∧
    mispairedRow.content = "x" ∧
    mispairedRow.embedding = embChar "y" ∧
    embChar "y" ≠ embChar "x" :=
  ⟨rfl, rfl, rfl, rfl, rfl, by decide⟩

/-- C2: refuted on the code (code bug).  The claim states the fallback
stages run in order with stage 3 (client-side term filtering) attempted
whenever stages 1 and 2 yield nothing.  But when the query contains
`"project"` with no token after it, stage 2 evaluates `[0]` on an empty
list, raising `IndexError`, and control jumps to the `except:` branch
(absolute fallback), skipping stage 3.  Concretely: on a store holding
one document `"hello world"` and the query `"project"`, stages 1 and 2
yield nothing, stage 3 would return `[]`, yet the code returns the
unrelated document. -/
theorem C2_fallback_skips_stage3_on_index_error :
    search_fallback goodB [rowD1] "project" 8 = [rowD1] ∧
    fallbackTry goodB [rowD1] "project" 8 = .error PyErr.indexError ∧
    (stage3Go ["project"] 8 [rowD1] []).take 8 = [] :=
  ⟨rfl, rfl, rfl⟩

/-- C3 counterexample: a whitespace-only query does not surface a
`ValidationError`; the internal `ValueError` is caught by the blanket
handler and `search` returns a result list (here the empty list produced
by the fallback). -/
theorem C3_counterexample_whitespace_query_returns_list :
    searchE embOK goodB [] " " 8 = .ok (SearchOut.fb []) := rfl

/-- C3 (amended): for every whitespace-only or empty query, `search`
raises `ValueError` internally, the blanket `except` catches it, and the
call returns the lexical fallback result for the same query and `top_k`
instead of surfacing the error. -/
theorem C3_amended_whitespace_query_falls_back
    (embedOne : String → Except PyErr (List ℚ)) (B : Backend) (db : List Row)
    (query : String) (top_k : Nat) (hq : pyStrip query = "") :
    searchE embedOne B db query top_k =
      .ok (.fb (search_fallback B db query top_k)) := by
  have hq' : (pyStrip query == "") = true := by simp [hq]
  simp [searchE, searchTry, hq']

/-- C3 witness: the amended theorem applied at a concrete whitespace
query against the good backend. -/
theorem C3_amended_witness :
    searchE embOK goodB [] "  " 8 = .ok (.fb (search_fallback goodB [] "  " 8)) :=
  C3_amended_whitespace_query_falls_back embOK goodB [] "  " 8 (by decide)

/-- C9: confirmed.  `search` is total: whatever the embedder and the
backend do (success, error response or raised exception) and whatever
the query (empty included), the call returns `.ok` with a result — every
stage of the chain absorbs errors and the final resort returns `[]`. -/
theorem C9_search_never_raises
    (embedOne : String → Except PyErr (List ℚ)) (B : Backend) (db : List Row)
    (query : String) (top_k : Nat) :
    ∃ out, searchE embedOne B db query top_k = .ok out := by
  cases h : searchTry embedOne B db query top_k with
  | ok out => exact ⟨out, by simp [searchE, h]⟩
  | error e => exact ⟨.fb (search_fallback B db query top_k), by simp [searchE, h]⟩

/-- C4: confirmed.  For a non-empty query, whenever the similarity step
fails — the embedding call raises, the RPC raises, the RPC response
carries a truthy error, or it returns zero rows — `search` returns the
lexical fallback applied to the same query text and the same `top_k`,
and propagates no error. -/
theorem C4_similarity_failure_invokes_fallback
    (embedOne : String → Except PyErr (List ℚ)) (B : Backend) (db : List Row)
    (query : String) (top_k : Nat) (hq : pyStrip query ≠ "")
    (h : (∃ e, embedOne query = .error e) ∨
         ∃ v, embedOne query = .ok v ∧
           ((∃ e, B.rpcSimilarity v top_k db = .error e) ∨
            ∃ resp, B.rpcSimilarity v top_k db = .ok resp ∧
              (resp.error = true ∨ resp.data = []))) :
    searchE embedOne B db query top_k =
      .ok (.fb (search_fallback B db query top_k)) := by
  have hq' : (pyStrip query == "") = false := beq_eq_false_iff_ne.mpr hq
  rcases h with ⟨e, he⟩ | ⟨v, hv, ⟨e, hre⟩ | ⟨resp, hr, herr | hdata⟩⟩
  · simp [searchE, searchTry, hq', he]
  · simp [searchE, searchTry, hq', hv, hre]
  · simp [searchE, searchTry, hq', hv, hr, herr]
  · cases herr : resp.error <;> simp [searchE, searchTry, hq', hv, hr, herr, hdata]

/-- C4 witness: a dead embedding service with the good backend; the
claim theorem is applied at the concrete input. -/
theorem C4_similarity_failure_witness :
    searchE embDown goodB [] "hi" 8 = .ok (.fb (search_fallback goodB [] "hi" 8)) :=
  C4_similarity_failure_invokes_fallback embDown goodB [] "hi" 8 (by decide)
    (Or.inl ⟨.apiError "service down", rfl⟩)

/-- C5: confirmed.  A successful `upsert(doc_id, content, metadata)`
with non-empty id and content and a dict metadata writes the row holding
the embedding of its own content and the serialized metadata; a
subsequent `get_document(doc_id)` on the resulting store returns that
row with the same content and with the metadata deserialized back to the
exact value passed to `upsert`. -/
theorem C5_get_after_upsert_roundtrips
    (E : String → List ℚ) (db : List Row) (doc_id content : String)
    (kvs : List (String × Json)) (hid : doc_id ≠ "") (hc : pyStrip content ≠ "") :
    upsert (fun s => .ok (E s)) goodB db doc_id content (Json.obj kvs) =
      .ok (madeRow E doc_id content (Json.obj kvs),
           dbUpsertRow db (madeRow E doc_id content (Json.obj kvs))) ∧
    get_document goodB (dbUpsertRow db (madeRow E doc_id content (Json.obj kvs))) doc_id =
      some { madeRow E doc_id content (Json.obj kvs) with
             metadata := MetaCell.val (Json.obj kvs) } := by
  have hc' : (pyStrip content == "") = false := beq_eq_false_iff_ne.mpr hc
  have hid' : (doc_id == "") = false := beq_eq_false_iff_ne.mpr hid
  constructor
  · simp [upsert, hc', hid', goodB, mkGoodBackend, dbUpsertRows, madeRow]
  · obtain ⟨rest, hrest⟩ := filter_dbUpsertRow db (madeRow E doc_id content (Json.obj kvs))
    have hdid : (madeRow E doc_id content (Json.obj kvs)).doc_id = doc_id := rfl
    rw [hdid] at hrest
    simp only [get_document, getDocTry, goodB, mkGoodBackend]
    rw [hrest]
    simp [parseMetaCell, metaToCell, json_loads, json_dumps, madeRow]

/-- C5 witness: the claim theorem applied to a concrete document. -/
theorem C5_get_after_upsert_witness :
    upsert (fun s => .ok (embChar s)) goodB [] "a" "hi" (Json.obj [("k", Json.str "v")]) =
      .ok (madeRow embChar "a" "hi" (Json.obj [("k", Json.str "v")]),
           dbUpsertRow [] (madeRow embChar "a" "hi" (Json.obj [("k", Json.str "v")]))) ∧
    get_document goodB
        (dbUpsertRow [] (madeRow embChar "a" "hi" (Json.obj [("k", Json.str "v")]))) "a" =
      some { madeRow embChar "a" "hi" (Json.obj [("k", Json.str "v")]) with
             metadata := MetaCell.val (Json.obj [("k", Json.str "v")]) } :=
  C5_get_after_upsert_roundtrips embChar [] "a" "hi" [("k", Json.str "v")]
    (by decide) (by decide)

/-- C6 counterexample: `search` has no `score_threshold` parameter and
performs no score filtering: with a backend whose similarity query
returns a single row of score `-1/2`, the call returns that row, below
any provided positive cutoff such as `1/5` (and below `0` as well). -/
theorem C6_counterexample_no_threshold_filtering :
    searchE embOK lowScoreB [] "q" 8 = .ok (.vecRows [lowScoreRow]) ∧
    lowScoreRow.score < 1 / 5 ∧ lowScoreRow.score < 0 :=
  ⟨rfl, by norm_num [lowScoreRow], by norm_num [lowScoreRow]⟩

/-- C6 (amended): the default `top_k` constant is 8, but `search` takes
no `score_threshold` argument and filters nothing by score: every row of
a successful similarity response is returned (after metadata parsing,
which preserves every score), regardless of how low the scores are. -/
theorem C6_amended_no_score_threshold
    (embedOne : String → Except PyErr (List ℚ)) (B : Backend) (db : List Row)
    (query : String) (top_k : Nat) (v : List ℚ) (resp : RespS)
    (hq : pyStrip query ≠ "") (hv : embedOne query = .ok v)
    (hr : B.rpcSimilarity v top_k db = .ok resp) (he : resp.error = false)
    (hne : resp.data ≠ []) :
    TOPK_DEFAULT = 8 ∧
    searchE embedOne B db query top_k = .ok (.vecRows (resp.data.map parseSRowMeta)) ∧
    (resp.data.map parseSRowMeta).map SRow.score = resp.data.map SRow.score := by
  have hq' : (pyStrip query == "") = false := beq_eq_false_iff_ne.mpr hq
  refine ⟨rfl, ?_, ?_⟩
  · simp [searchE, searchTry, hq', hv, hr, he, hne]
  · simp [parseSRowMeta]

/-- C6 witness: the amended theorem applied at the backend whose
similarity query reports one row of score `-1/2`. -/
theorem C6_amended_witness :
    TOPK_DEFAULT = 8 ∧
    searchE embOK lowScoreB [] "q" 8 = .ok (.vecRows ([lowScoreRow].map parseSRowMeta)) ∧
    ([lowScoreRow].map parseSRowMeta).map SRow.score = [lowScoreRow].map SRow.score :=
  C6_amended_no_score_threshold embOK lowScoreB [] "q" 8 (embChar "q")
    ⟨false, [lowScoreRow]⟩ (by decide) rfl rfl rfl (by simp)

/-- C7 counterexample: the claim states both embedding paths back off
linearly (base delay times attempt number).  For `_embed_single` the
code sleeps the constant `_RETRY_DELAY`: with a service that fails every
attempt, the observed delays are `[2, 2]`, not `[2 * 1, 2 * 2]`. -/
theorem C7_counterexample_single_constant_delay :
    embed_single_trace failS "x" =
      .ok ⟨.error (.apiError "retries exhausted"), [2, 2], 3⟩ ∧
    ([2, 2] : List Nat) ≠ [RETRY_DELAY * 1, RETRY_DELAY * 2] :=
  ⟨rfl, by decide⟩

/-- C7 (amended): both loops stop after at most `_MAX_RETRIES = 3`
attempts; the batch loop backs off linearly (the k-th delay is
`_RETRY_DELAY * k`), while the single-text loop sleeps the constant
`_RETRY_DELAY` between attempts. -/
theorem C7_amended_retry_delays
    (oracleS : Nat → Attempt (List ℚ)) (oracleB : Nat → Attempt (List (List ℚ))) :
    (embed_batch_trace oracleB).attempts ≤ MAX_RETRIES ∧
    (embed_batch_trace oracleB).delays =
      (List.range (embed_batch_trace oracleB).delays.length).map
        (fun i => RETRY_DELAY * (i + 1)) ∧
    (retryGo oracleS (fun _ => RETRY_DELAY) 0 MAX_RETRIES).attempts ≤ MAX_RETRIES ∧
    (retryGo oracleS (fun _ => RETRY_DELAY) 0 MAX_RETRIES).delays =
      List.replicate (retryGo oracleS (fun _ => RETRY_DELAY) 0 MAX_RETRIES).delays.length
        RETRY_DELAY := by
  refine ⟨?_, ?_, ?_, ?_⟩ <;>
  · cases h0 : oracleB 0 <;> cases h1 : oracleB 1 <;> cases h2 : oracleB 2 <;>
      cases g0 : oracleS 0 <;> cases g1 : oracleS 1 <;> cases g2 : oracleS 2 <;>
      simp [embed_batch_trace, retryGo, MAX_RETRIES, RETRY_DELAY, h0, h1, h2, g0, g1, g2,
        List.range_succ]

/-- C8 counterexample: a delete whose backend call raises is reported as
`False`, the same value returned for deleting an absent id against a
healthy backend — the failure is swallowed, not surfaced. -/
theorem C8_counterexample_failed_delete_returns_false :
    delete badB [rowD1] "d1" = (false, [rowD1]) ∧
    delete goodB [] "d1" = (false, []) :=
  ⟨rfl, rfl⟩

/-- C8 (amended): `upsert` surfaces backend write failures by
re-raising, but `delete` swallows them: a raised exception during delete
yields `(False, unchanged store)`, indistinguishable from the
absent-id outcome. -/
theorem C8_amended_upsert_raises_delete_swallows
    (embedOne : String → Except PyErr (List ℚ)) (B : Backend) (db : List Row)
    (doc_id content : String) (metadata : Json) (v : List ℚ) (e e' : PyErr)
    (hc : pyStrip content ≠ "") (hid : doc_id ≠ "")
    (hv : embedOne content = .ok v)
    (hw : B.upsertRows [⟨doc_id, content, v, metaToCell metadata⟩] db = .error e)
    (hd : B.deleteByDocId doc_id db = .error e') :
    upsert embedOne B db doc_id content metadata = .error e ∧
    delete B db doc_id = (false, db) := by
  have hc' : (pyStrip content == "") = false := beq_eq_false_iff_ne.mpr hc
  have hid' : (doc_id == "") = false := beq_eq_false_iff_ne.mpr hid
  constructor
  · simp [upsert, hc', hid', hv, hw]
  · simp [delete, hd]

/-- C8 witness: the amended theorem applied against the backend that
raises on every call. -/
theorem C8_amended_witness :
    upsert embOK badB [rowD1] "d1" "hello" Json.null =
      .error (.apiError "connection refused") ∧
    delete badB [rowD1] "d1" = (false, [rowD1]) :=
  C8_amended_upsert_raises_delete_swallows embOK badB [rowD1] "d1" "hello" Json.null
    (embChar "hello") (.apiError "connection refused") (.apiError "connection refused")
    (by decide) (by decide) rfl rfl rfl

/-- C10: confirmed.  When the backend fails (raising, or answering with
a truthy error field), `count_documents` returns `0` and `get_document`
returns `None` — the same values an empty store and an absent document
produce against a healthy backend, so the caller cannot tell the cases
apart. -/
theorem C10_reads_absorb_backend_failures
    (B : Backend) (db : List Row) (doc_id : String)
    (hc : (∃ e, B.countExact db = .error e) ∨
          ∃ r, B.countExact db = .ok r ∧ r.error = true)
    (hg : (∃ e, B.selectByDocId doc_id db = .error e) ∨
          ∃ r, B.selectByDocId doc_id db = .ok r ∧ r.error = true) :
    count_documents B db = 0 ∧ get_document B db doc_id = none ∧
    count_documents goodB [] = 0 ∧ get_document goodB [] doc_id = none := by
  refine ⟨?_, ?_, rfl, ?_⟩
  · rcases hc with ⟨e, he⟩ | ⟨r, hr, herr⟩ <;> simp [count_documents, countTry, *]
  · rcases hg with ⟨e, he⟩ | ⟨r, hr, herr⟩ <;> simp [get_document, getDocTry, *]
  · simp [get_document, getDocTry, goodB, mkGoodBackend]

/-- C10 witness: the claim theorem applied against the backend that
raises on every call. -/
theorem C10_reads_absorb_witness :
    count_documents badB [rowD1] = 0 ∧ get_document badB [rowD1] "d1" = none ∧
    count_documents goodB [] = 0 ∧ get_document goodB [] "d1" = none :=
  C10_reads_absorb_backend_failures badB [rowD1] "d1"
    (Or.inl ⟨.apiError "connection refused", rfl⟩)
    (Or.inl ⟨.apiError "connection refused", rfl⟩)

end SupabaseStore
